import Mathlib

/-!
Verification development for the voice-agent backend
(`backend/src/agent.py` and `backend/src/agents/commerce_agent.py`).

The per-agent state machines and their tool operations are shallowly
embedded: Python classes become structures, tool methods become pure
functions from state (plus the relevant file content, passed explicitly)
to new state together with the returned conversational string.  A Python
exception that the source does not catch is modelled as `Except.error ()`.
Python `None`-able attributes become `Option`, Python float prices become
`ℚ`, and Python `str.lower` / `str.strip` / `str.split` / substring `in`
become the structural `py_lower` / `py_trim` / `py_split` / `py_in` below
(structural so that the kernel can evaluate concrete instances).
-/

set_option maxHeartbeats 1000000

/-- Python `needle in haystack` on lists of characters: `n` occurs as a
contiguous sublist of `h`. -/
def char_sub (n : List Char) : List Char → Bool
  | [] => n.isEmpty
  | c :: rest => (n.isPrefixOf (c :: rest)) || char_sub n rest

/-- Python substring test `needle in haystack` for strings. -/
def py_in (needle haystack : String) : Bool :=
  char_sub needle.toList haystack.toList

/-- Python truthiness of an optional string: `None` and `""` are falsy. -/
def py_falsy : Option String → Bool
  | none => true
  | some s => s == ""

/-- Python f-string rendering of a possibly-`None` string. -/
def opt_str : Option String → String
  | none => "None"
  | some s => s

/-- Python `str.lower` (per character, as in the ASCII inputs this
program handles), written structurally so concrete instances evaluate. -/
def py_lower (s : String) : String := String.mk (s.data.map Char.toLower)

/-- Drop leading whitespace characters. -/
def drop_ws : List Char → List Char
  | [] => []
  | c :: rest => if c.isWhitespace then drop_ws rest else c :: rest

/-- Python `str.strip`: remove whitespace from both ends. -/
def py_trim (s : String) : String :=
  String.mk ((drop_ws (drop_ws s.data).reverse).reverse)

/-- Whitespace splitter accumulating the current word (reversed). -/
def split_ws : List Char → List Char → List String
  | [], acc => if acc.isEmpty then [] else [String.mk acc.reverse]
  | c :: rest, acc =>
      if c.isWhitespace then
        if acc.isEmpty then split_ws rest []
        else String.mk acc.reverse :: split_ws rest []
      else split_ws rest (c :: acc)

/-- Python `str.split()` with no separator: split on whitespace runs,
dropping empty tokens. -/
def py_split (s : String) : List String := split_ws s.data []

/- ------------------------------------------------------------------
Food-ordering cart (`CartState` in agent.py).
------------------------------------------------------------------ -/

/-- A catalog item as used by `CartState.add_item` (`id`, `name`,
`price` are the fields the cart logic reads; price is a JSON number,
modelled in `ℚ`). -/
structure Item where
  id : String
  name : String
  price : ℚ
deriving Repr, DecidableEq

/-- A cart line item: the catalog item fields together with the
`quantity`, `notes` and `subtotal` keys added by `add_item`. -/
structure CartItem where
  id : String
  name : String
  price : ℚ
  quantity : ℤ
  notes : String
  subtotal : ℚ
deriving Repr, DecidableEq

/-- The loop body of `CartState.add_item`: scan the cart for a line with
the same `id` and the same `notes`; on a hit increment its `quantity`
(the source does not touch `subtotal` there); otherwise append a new line
with `subtotal = price * quantity`. -/
def add_item_list (items : List CartItem) (item : Item) (quantity : ℤ) (notes : String) :
    List CartItem :=
  match items with
  | [] =>
      [{ id := item.id, name := item.name, price := item.price,
         quantity := quantity, notes := notes,
         subtotal := item.price * (quantity : ℚ) }]
  | c :: rest =>
      if c.id = item.id ∧ c.notes = notes then
        { c with quantity := c.quantity + quantity } :: rest
      else
        c :: add_item_list rest item quantity notes

/-- `CartState.remove_item`: keep the lines whose `id` differs. -/
def remove_item_list (items : List CartItem) (item_id : String) : List CartItem :=
  items.filter (fun it => it.id ≠ item_id)

/-- `CartState.update_quantity`: first line with a matching `id` gets the
new quantity and a recomputed subtotal; a non-positive quantity removes
the item instead. -/
def update_quantity_list (items : List CartItem) (item_id : String) (new_quantity : ℤ) :
    List CartItem :=
  match items with
  | [] => []
  | c :: rest =>
      if c.id = item_id then
        if new_quantity ≤ 0 then
          remove_item_list (c :: rest) item_id
        else
          { c with quantity := new_quantity,
                   subtotal := c.price * (new_quantity : ℚ) } :: rest
      else
        c :: update_quantity_list rest item_id new_quantity

/-- In-memory cart of the food-ordering agent (`CartState`). -/
structure CartState where
  items : List CartItem
  customer_name : Option String
  customer_address : Option String
  order_complete : Bool
deriving Repr, DecidableEq

/-- `CartState.__init__`. -/
def CartState.init : CartState :=
  { items := [], customer_name := none, customer_address := none, order_complete := false }

/-- `CartState.add_item` lifted to the cart state. -/
def CartState.add_item (st : CartState) (item : Item) (quantity : ℤ) (notes : String) :
    CartState :=
  { st with items := add_item_list st.items item quantity notes }

/-- `CartState.get_total`. -/
def CartState.get_total (st : CartState) : ℚ :=
  (st.items.map (fun it => it.subtotal)).sum

/-- `CartState.get_item_count`. -/
def CartState.get_item_count (st : CartState) : ℤ :=
  (st.items.map (fun it => it.quantity)).sum

/- ------------------------------------------------------------------
Commerce cart (`CommerceAgent` in agents/commerce_agent.py).
------------------------------------------------------------------ -/

/-- A commerce catalog product (`id`, `name`, `price`, `category`, and
the `sizes` attribute list read by `add_to_cart`). -/
structure Product where
  id : String
  name : String
  price : ℚ
  category : String
  sizes : List String
deriving Repr, DecidableEq

/-- A commerce cart line item as built in `CommerceAgent.add_to_cart`. -/
structure CommerceItem where
  product_id : String
  name : String
  price : ℚ
  quantity : ℤ
  subtotal : ℚ
  size : Option String
deriving Repr, DecidableEq

/-- The cart mutation of `CommerceAgent.add_to_cart` once a product has
been resolved: ask for a size for clothing without one; otherwise build a
fresh line item and append it to `cart_items` (the source never merges
with an existing line). -/
def commerce_add_to_cart (cart_items : List CommerceItem) (product : Product)
    (quantity : ℤ) (size : String) : List CommerceItem :=
  if product.category = "clothing" ∧ size = "" ∧ product.sizes ≠ [] then
    cart_items
  else
    cart_items ++
      [{ product_id := product.id, name := product.name, price := product.price,
         quantity := quantity, subtotal := product.price * (quantity : ℚ),
         size := if size = "" then none else some size }]

/- ------------------------------------------------------------------
Wellness check-in (`WellnessState` / `HealthWellnessCompanion` in agent.py).
------------------------------------------------------------------ -/

/-- `WellnessState.__init__` field set. -/
structure WellnessState where
  mood : Option String
  energy_level : Option String
  stress_factors : List String
  daily_objectives : List String
  self_care_intentions : List String
  check_in_complete : Bool
deriving Repr, DecidableEq

/-- `WellnessState()` default values. -/
def WellnessState.init : WellnessState :=
  { mood := none, energy_level := none, stress_factors := [],
    daily_objectives := [], self_care_intentions := [], check_in_complete := false }

/-- `WellnessState.is_complete`: mood and energy level are not `None`
and at least one daily objective exists. -/
def WellnessState.is_complete (st : WellnessState) : Bool :=
  st.mood.isSome && st.energy_level.isSome && decide (0 < st.daily_objectives.length)

/-- `WellnessState.get_missing_fields`: Python truthiness checks on
mood, energy level and the daily-objectives list, in declared order. -/
def WellnessState.get_missing_fields (st : WellnessState) : List String :=
  (if py_falsy st.mood then ["mood"] else []) ++
  (if py_falsy st.energy_level then ["energy level"] else []) ++
  (if st.daily_objectives.isEmpty then ["daily objectives"] else [])

/-- `HealthWellnessCompanion.record_mood`: store the lowercased mood,
acknowledge with the raw argument. -/
def record_mood (st : WellnessState) (mood : String) : WellnessState × String :=
  ({ st with mood := some (py_lower mood) },
   "I hear that you\x27re feeling " ++ mood ++ ". Thank you for sharing that with me.")

/-- `HealthWellnessCompanion.record_energy_level`. -/
def record_energy_level (st : WellnessState) (energy_level : String) :
    WellnessState × String :=
  ({ st with energy_level := some (py_lower energy_level) },
   "Got it, your energy is " ++ energy_level ++ " today.")

/-- `HealthWellnessCompanion.add_stress_factor`: append the lowercased
value unless it is already present. -/
def add_stress_factor (st : WellnessState) (stress_factor : String) :
    WellnessState × String :=
  (if st.stress_factors.contains (py_lower stress_factor) then st
   else { st with stress_factors := st.stress_factors ++ [py_lower stress_factor] },
   "I understand that " ++ stress_factor ++ " is weighing on you right now.")

/-- `HealthWellnessCompanion.add_daily_objective`. -/
def add_daily_objective (st : WellnessState) (objective : String) :
    WellnessState × String :=
  (if st.daily_objectives.contains (py_lower objective) then st
   else { st with daily_objectives := st.daily_objectives ++ [py_lower objective] },
   "That sounds like a great goal: " ++ objective ++ ".")

/-- `HealthWellnessCompanion.add_self_care_intention`. -/
def add_self_care_intention (st : WellnessState) (intention : String) :
    WellnessState × String :=
  (if st.self_care_intentions.contains (py_lower intention) then st
   else { st with self_care_intentions := st.self_care_intentions ++ [py_lower intention] },
   "That\x27s wonderful - " ++ intention ++ " sounds like great self-care.")

/-- One persisted wellness log entry: the `to_dict()` snapshot plus the
derived date/time/timestamp/summary fields added by `complete_checkin`. -/
structure CheckinEntry where
  mood : Option String
  energy_level : Option String
  stress_factors : List String
  daily_objectives : List String
  self_care_intentions : List String
  check_in_complete : Bool
  date : String
  time : String
  timestamp : String
  summary : String
deriving Repr, DecidableEq

/-- A parsed wellness log document (`json.load` of wellness_log.json).
`entries = none` models a JSON object that has no "entries" key, on
which the source raises `KeyError`. -/
structure WellnessLogDoc where
  entries : Option (List CheckinEntry)
deriving Repr, DecidableEq

/-- `HealthWellnessCompanion.complete_checkin`.  `loaded` is the parsed
content of the existing log file (`none` when the file is absent or
fails to parse, in which case the source falls back to an empty
document); `date`, `time` and `ts` stand for the wall-clock strings.
The final file write is modelled as succeeding; `Except.error ()`
models the uncaught `KeyError` raised by
`wellness_log["entries"].append(...)` when the parsed document lacks
the "entries" key. -/
def complete_checkin (st : WellnessState) (loaded : Option WellnessLogDoc)
    (date time ts : String) :
    Except Unit (WellnessState × Option WellnessLogDoc × String) :=
  if ¬ st.is_complete then
    .ok (st, none,
      "Let\x27s make sure we cover " ++ String.intercalate ", " st.get_missing_fields ++
      " before we wrap up our check-in.")
  else
    let checkin_data : CheckinEntry :=
      { mood := st.mood, energy_level := st.energy_level,
        stress_factors := st.stress_factors,
        daily_objectives := st.daily_objectives,
        self_care_intentions := st.self_care_intentions,
        check_in_complete := st.check_in_complete,
        date := date, time := time, timestamp := ts,
        summary := "Feeling " ++ opt_str st.mood ++ " with " ++ opt_str st.energy_level ++
          " energy. Goals: " ++ String.intercalate ", " (st.daily_objectives.take 3) }
    let wellness_log := loaded.getD { entries := some [] }
    match wellness_log.entries with
    | none => .error ()
    | some es =>
        let wellness_log : WellnessLogDoc := { entries := some (es ++ [checkin_data]) }
        let objectives_text := String.intercalate ", " (st.daily_objectives.take 3)
        let stress_text :=
          if st.stress_factors ≠ [] then
            " I also noted that " ++ String.intercalate ", " st.stress_factors ++
            " is on your mind."
          else ""
        let self_care_text :=
          if st.self_care_intentions ≠ [] then
            " For self-care, you\x27re planning to " ++
            String.intercalate ", " st.self_care_intentions ++ "."
          else ""
        let summary :=
          "Thank you for sharing with me today. To recap: you\x27re feeling " ++
          opt_str st.mood ++ " with " ++ opt_str st.energy_level ++
          " energy, and your main goals are " ++ objectives_text ++ "." ++
          stress_text ++ self_care_text ++
          " Does this sound right? I\x27ve saved our check-in and I\x27m here whenever you need to talk."
        .ok ({ st with check_in_complete := true }, some wellness_log, summary)

/-- `HealthWellnessCompanion.start_new_checkin` resets the in-memory
record. -/
def start_new_checkin (_st : WellnessState) : WellnessState :=
  WellnessState.init

/- ------------------------------------------------------------------
SDR lead capture (`LeadState` / `SDRAgent` / `CompanyFAQ` in agent.py).
------------------------------------------------------------------ -/

/-- `LeadState.__init__` field set. -/
structure LeadState where
  name : Option String
  company : Option String
  email : Option String
  role : Option String
  use_case : Option String
  team_size : Option String
  timeline : Option String
  questions_asked : List String
  conversation_summary : String
  call_complete : Bool
deriving Repr, DecidableEq

/-- `LeadState()` default values. -/
def LeadState.init : LeadState :=
  { name := none, company := none, email := none, role := none, use_case := none,
    team_size := none, timeline := none, questions_asked := [],
    conversation_summary := "", call_complete := false }

/-- `LeadState.is_complete`: name, email and use case are not `None`. -/
def LeadState.is_complete (st : LeadState) : Bool :=
  st.name.isSome && st.email.isSome && st.use_case.isSome

/-- `LeadState.get_missing_fields`: Python truthiness checks on name,
email, company, use case and timeline, in declared order. -/
def LeadState.get_missing_fields (st : LeadState) : List String :=
  (if py_falsy st.name then ["name"] else []) ++
  (if py_falsy st.email then ["email"] else []) ++
  (if py_falsy st.company then ["company"] else []) ++
  (if py_falsy st.use_case then ["use case"] else []) ++
  (if py_falsy st.timeline then ["timeline"] else [])

/-- `SDRAgent.record_lead_name`. -/
def record_lead_name (st : LeadState) (name : String) : LeadState × String :=
  ({ st with name := some name }, "Great to meet you, " ++ name ++ "!")

/-- `SDRAgent.record_lead_company`. -/
def record_lead_company (st : LeadState) (company : String) : LeadState × String :=
  ({ st with company := some company },
   "Thanks! Tell me more about what " ++ company ++ " does.")

/-- `SDRAgent.record_lead_email`. -/
def record_lead_email (st : LeadState) (email : String) : LeadState × String :=
  ({ st with email := some email }, "Perfect, I\x27ve got your email as " ++ email ++ ".")

/-- `SDRAgent.record_lead_role`. -/
def record_lead_role (st : LeadState) (role : String) : LeadState × String :=
  ({ st with role := some role }, "Got it, you\x27re the " ++ role ++ ".")

/-- `SDRAgent.record_use_case`. -/
def record_use_case (st : LeadState) (use_case : String) : LeadState × String :=
  ({ st with use_case := some use_case },
   "That\x27s a great use case! " ++ use_case ++ " is something we handle really well.")

/-- `SDRAgent.record_team_size`. -/
def record_team_size (st : LeadState) (team_size : String) : LeadState × String :=
  ({ st with team_size := some team_size }, "Thanks for sharing that!")

/-- The keyword classes of `SDRAgent.record_timeline`. -/
def now_keywords : List String := ["now", "immediate", "urgent", "asap", "today"]

/-- The soon-class keywords of `SDRAgent.record_timeline`. -/
def soon_keywords : List String := ["soon", "week", "month", "next"]

/-- The normalization cascade inside `SDRAgent.record_timeline`. -/
def normalize_timeline (timeline : String) : String :=
  let timeline_lower := py_lower timeline
  if now_keywords.any (fun word => py_in word timeline_lower) then "now"
  else if soon_keywords.any (fun word => py_in word timeline_lower) then "soon"
  else "later"

/-- `SDRAgent.record_timeline`: normalize, store, and answer per bucket. -/
def record_timeline (st : LeadState) (timeline : String) : LeadState × String :=
  let normalized_timeline := normalize_timeline timeline
  ({ st with timeline := some normalized_timeline },
   if normalized_timeline = "now" then
     "That\x27s great! We can get you set up very quickly. Our onboarding typically takes less than 15 minutes."
   else if normalized_timeline = "soon" then
     "Perfect! We\x27ll make sure you have all the information you need to get started when you\x27re ready."
   else
     "No problem! It\x27s great that you\x27re exploring options early. I\x27m here to answer any questions.")

/-- One FAQ entry (`question`, `answer`, `keywords`) as stored in the
SDR FAQ file. -/
structure FaqItem where
  question : String
  answer : String
  keywords : List String
deriving Repr, DecidableEq

/-- The per-entry score of `CompanyFAQ.search_faq`: 2 per keyword that
occurs in the lowercased query, plus 1 per word of the lowercased
question longer than 3 characters that occurs in the query. -/
def faq_score (query_lower : String) (item : FaqItem) : Nat :=
  2 * (item.keywords.filter (fun k => py_in (py_lower k) query_lower)).length +
  ((py_split (py_lower item.question)).filter
    (fun word => decide (3 < word.length) && py_in word query_lower)).length

/-- The scan loop of `CompanyFAQ.search_faq`: carry the best match and
best score, replacing them only on a strictly greater score. -/
def faq_scan (query_lower : String) (items : List FaqItem)
    (best : Option FaqItem × Nat) : Option FaqItem × Nat :=
  match items with
  | [] => best
  | item :: rest =>
      if faq_score query_lower item > best.2 then
        faq_scan query_lower rest (some item, faq_score query_lower item)
      else
        faq_scan query_lower rest best

/-- `CompanyFAQ.search_faq`: best match by the scan above, `none` when
the best score stays 0. -/
def search_faq (items : List FaqItem) (query : String) : Option FaqItem :=
  let query_lower := py_lower query
  let result := faq_scan query_lower items (none, 0)
  if result.2 > 0 then result.1 else none

/-- `SDRAgent.answer_company_question`: unconditionally append the
question to `questions_asked`, then answer from the FAQ (or fall back
to the company overview). -/
def answer_company_question (st : LeadState) (items : List FaqItem)
    (company_overview : String) (question : String) : LeadState × String :=
  let st := { st with questions_asked := st.questions_asked ++ [question] }
  match search_faq items question with
  | some faq_match =>
      (st, faq_match.answer ++ " Is there anything else you\x27d like to know about this?")
  | none =>
      (st, "That\x27s a great question! Let me share what I know. " ++ company_overview ++
        " Would you like me to connect you with our team for more specific details about that?")

/- ------------------------------------------------------------------
Fraud alert agent (`FraudCaseState` / `FraudAlertAgent` in agent.py).
------------------------------------------------------------------ -/

/-- One stored fraud case, as read from fraud_cases.json.  Every field
is optional because the source reads it with `dict.get`. -/
structure StoredCase where
  userName : Option String
  securityIdentifier : Option String
  cardEnding : Option String
  transactionAmount : Option String
  transactionName : Option String
  transactionTime : Option String
  transactionCategory : Option String
  transactionSource : Option String
  transactionLocation : Option String
  securityQuestion : Option String
  securityAnswer : Option String
  status : Option String
  outcome : Option String
deriving Repr, DecidableEq

/-- `FraudCaseState.__init__` field set. -/
structure FraudCaseState where
  user_name : Option String
  security_identifier : Option String
  card_ending : Option String
  transaction_amount : Option String
  transaction_name : Option String
  transaction_time : Option String
  transaction_category : Option String
  transaction_source : Option String
  transaction_location : Option String
  security_question : Option String
  security_answer : Option String
  status : String
  outcome : Option String
  verification_passed : Bool
  user_confirmed_transaction : Option Bool
deriving Repr, DecidableEq

/-- `FraudCaseState()` default values (`status = "pending_review"`). -/
def FraudCaseState.init : FraudCaseState :=
  { user_name := none, security_identifier := none, card_ending := none,
    transaction_amount := none, transaction_name := none, transaction_time := none,
    transaction_category := none, transaction_source := none,
    transaction_location := none, security_question := none, security_answer := none,
    status := "pending_review", outcome := none, verification_passed := false,
    user_confirmed_transaction := none }

/-- The `FraudAlertAgent` attributes relevant to the tools: the case
record plus the `case_loaded` flag. -/
structure FraudAgentState where
  fraud_case : FraudCaseState
  case_loaded : Bool
deriving Repr, DecidableEq

/-- `FraudAlertAgent.__init__` state. -/
def FraudAgentState.init : FraudAgentState :=
  { fraud_case := FraudCaseState.init, case_loaded := false }

/-- `FraudAlertAgent.load_fraud_case_by_username`: first case whose
`userName` matches case-insensitively is copied into the state (the
fields not listed in the source, such as `outcome`,
`verification_passed` and `user_confirmed_transaction`, keep their
previous values); a miss changes nothing. -/
def load_fraud_case_by_username (ag : FraudAgentState) (cases : List StoredCase)
    (user_name : String) : FraudAgentState × String :=
  match cases.find? (fun c => py_lower (c.userName.getD "") == py_lower user_name) with
  | none =>
      (ag, "I\x27m sorry, I don\x27t have a fraud case on file for " ++ user_name ++
        ". Could you please verify your name?")
  | some matching_case =>
      let fc := { ag.fraud_case with
        user_name := matching_case.userName,
        security_identifier := matching_case.securityIdentifier,
        card_ending := matching_case.cardEnding,
        transaction_amount := matching_case.transactionAmount,
        transaction_name := matching_case.transactionName,
        transaction_time := matching_case.transactionTime,
        transaction_category := matching_case.transactionCategory,
        transaction_source := matching_case.transactionSource,
        transaction_location := matching_case.transactionLocation,
        security_question := matching_case.securityQuestion,
        security_answer := matching_case.securityAnswer,
        status := matching_case.status.getD "pending_review" }
      ({ fraud_case := fc, case_loaded := true },
       "Thank you, " ++ user_name ++
        ". I have your case pulled up. For security purposes, I need to verify your identity before we proceed. " ++
        opt_str fc.security_question)

/-- `FraudAlertAgent._update_case_in_database`: only the first stored
case whose `userName` matches `un_lower` case-insensitively receives
the in-memory status and outcome; everything else is written back
unchanged. -/
def update_case_in_database_list (cases : List StoredCase) (un_lower : String)
    (status : String) (outcome : Option String) : List StoredCase :=
  match cases with
  | [] => []
  | c :: rest =>
      if py_lower (c.userName.getD "") == un_lower then
        { c with status := some status, outcome := outcome } :: rest
      else
        c :: update_case_in_database_list rest un_lower status outcome

/-- `FraudAlertAgent._update_case_in_database` at the agent level.
`self.fraud_case.user_name.lower()` raises `AttributeError` when the
in-memory user name is `None`; that uncaught exception is modelled as
`Except.error ()`. -/
def update_case_in_database (fc : FraudCaseState) (cases : List StoredCase) :
    Except Unit (List StoredCase) :=
  match fc.user_name with
  | none => .error ()
  | some un => .ok (update_case_in_database_list cases (py_lower un) fc.status fc.outcome)

/-- The outcome note written on a failed verification. -/
def verification_failed_outcome : String :=
  "Customer failed identity verification. Advised to contact bank directly."

/-- `FraudAlertAgent.verify_customer_identity`.  `Except.error ()` is
the uncaught `AttributeError` raised by
`self.fraud_case.security_answer.lower()` when the loaded case has no
stored security answer. -/
def verify_customer_identity (ag : FraudAgentState) (cases : List StoredCase)
    (answer : String) :
    Except Unit (FraudAgentState × List StoredCase × String) :=
  if ¬ ag.case_loaded then
    .ok (ag, cases, "I need to load your fraud case first. Can you please provide your name?")
  else
    match ag.fraud_case.security_answer with
    | none => .error ()
    | some stored_answer =>
        if py_trim (py_lower answer) = py_trim (py_lower stored_answer) then
          .ok ({ ag with fraud_case := { ag.fraud_case with verification_passed := true } },
            cases,
            "Thank you for verifying your identity. Now, let me tell you about the suspicious transaction we detected. On " ++
            opt_str ag.fraud_case.transaction_time ++ ", we noticed a charge of " ++
            opt_str ag.fraud_case.transaction_amount ++ " to " ++
            opt_str ag.fraud_case.transaction_name ++ " from " ++
            opt_str ag.fraud_case.transaction_location ++
            ". The transaction was made through " ++
            opt_str ag.fraud_case.transaction_source ++ " for " ++
            opt_str ag.fraud_case.transaction_category ++ ". Did you make this purchase?"
          )
        else
          let fc := { ag.fraud_case with
            verification_passed := false,
            status := "verification_failed",
            outcome := some verification_failed_outcome }
          match update_case_in_database fc cases with
          | .error e => .error e
          | .ok cases =>
              .ok ({ ag with fraud_case := fc }, cases,
                "I\x27m sorry, but that answer doesn\x27t match our records. For your security, I cannot proceed with this call. Please contact SecureBank directly at 1-800-SECURE-BANK or visit your nearest branch with a valid ID. Your account security is our top priority.")

/-- The verify-first refusal returned by
`record_transaction_confirmation` before verification. -/
def verify_first_message : String :=
  "I need to verify your identity first before we can discuss the transaction details."

/-- The outcome note for a transaction confirmed legitimate. -/
def confirmed_safe_outcome : String :=
  "Customer confirmed the transaction as legitimate. No action required."

/-- The outcome note for a transaction confirmed fraudulent. -/
def confirmed_fraud_outcome : String :=
  "Customer denied making the transaction. Card blocked, dispute initiated, new card being issued."

/-- `FraudAlertAgent.record_transaction_confirmation`. -/
def record_transaction_confirmation (ag : FraudAgentState) (cases : List StoredCase)
    (customer_made_transaction : Bool) :
    Except Unit (FraudAgentState × List StoredCase × String) :=
  if ¬ ag.fraud_case.verification_passed then
    .ok (ag, cases, verify_first_message)
  else
    let fc := { ag.fraud_case with
      user_confirmed_transaction := some customer_made_transaction }
    if customer_made_transaction then
      let fc := { fc with status := "confirmed_safe", outcome := some confirmed_safe_outcome }
      match update_case_in_database fc cases with
      | .error e => .error e
      | .ok cases =>
          .ok ({ ag with fraud_case := fc }, cases,
            "Excellent! Thank you for confirming that you made this purchase. I\x27ve marked this transaction as legitimate in our system, and no further action is needed. Your card ending in " ++
            opt_str fc.card_ending ++
            " remains active and secure. Is there anything else I can help you with today?")
    else
      let fc := { fc with status := "confirmed_fraud", outcome := some confirmed_fraud_outcome }
      match update_case_in_database fc cases with
      | .error e => .error e
      | .ok cases =>
          .ok ({ ag with fraud_case := fc }, cases,
            "I understand, and I\x27m sorry this happened to you. For your protection, I\x27m taking immediate action. I\x27ve blocked your card ending in " ++
            opt_str fc.card_ending ++
            " to prevent any further unauthorized charges. We\x27re initiating a dispute for the " ++
            opt_str fc.transaction_amount ++
            " charge, and you should see that amount credited back to your account within 5-7 business days. A new card will be sent to your address on file within 3-5 business days. You will not be held responsible for this fraudulent charge. Is there anything else you\x27d like me to clarify?")

/-- The closed status enum of the fraud case state machine. -/
def fraud_status_enum : List String :=
  ["pending_review", "verification_failed", "confirmed_safe", "confirmed_fraud"]

/-- One tool invocation against the fraud agent. -/
inductive FraudOp where
  | load (user_name : String)
  | verify (answer : String)
  | confirm (customer_made_transaction : Bool)
deriving Repr, DecidableEq

/-- Run one fraud tool call; on an uncaught exception the Python agent
object keeps whatever state it had before the raising statement, which
for both raising spots is the pre-call state bar the store. -/
def fraud_step (s : FraudAgentState × List StoredCase) (op : FraudOp) :
    FraudAgentState × List StoredCase :=
  match op with
  | .load n => ((load_fraud_case_by_username s.1 s.2 n).1, s.2)
  | .verify a =>
      match verify_customer_identity s.1 s.2 a with
      | .ok (ag, cs, _) => (ag, cs)
      | .error _ => s
  | .confirm b =>
      match record_transaction_confirmation s.1 s.2 b with
      | .ok (ag, cs, _) => (ag, cs)
      | .error _ => s

/-- Run a sequence of fraud tool calls. -/
def fraud_run (s : FraudAgentState × List StoredCase) (ops : List FraudOp) :
    FraudAgentState × List StoredCase :=
  ops.foldl fraud_step s

/- ------------------------------------------------------------------
Food order completion (`FoodOrderingAgent.complete_order` in agent.py).
------------------------------------------------------------------ -/

/-- Rounding to two decimals; Python `round(x, 2)` (exact halves round
half-up here rather than half-even, which no claim depends on). -/
def round2 (q : ℚ) : ℚ :=
  ((round (q * 100) : ℤ) : ℚ) / 100

/-- The per-order JSON document written by `complete_order`. -/
structure OrderDoc where
  order_id : String
  timestamp : String
  date : String
  time : String
  customer_name : String
  customer_address : String
  items : List CartItem
  total_items : ℤ
  subtotal : ℚ
  tax : ℚ
  total : ℚ
  status : String
deriving Repr, DecidableEq

/-- `FoodOrderingAgent.complete_order`: reject an empty cart or a
missing customer name without writing anything; otherwise package the
order document, write it (modelled as succeeding), and replace the
in-memory cart with a fresh `CartState()`.  `order_id`/`ts`/`date`/
`time` stand for the wall-clock-derived strings. -/
def complete_order (cart : CartState) (order_id ts date time : String) :
    Option OrderDoc × CartState × String :=
  if cart.items.isEmpty then
    (none, cart, "Your cart is empty! Add some items before placing your order.")
  else if py_falsy cart.customer_name then
    (none, cart, "I need your name to complete the order. What\x27s your name?")
  else
    let order_data : OrderDoc :=
      { order_id := order_id, timestamp := ts, date := date, time := time,
        customer_name := opt_str cart.customer_name,
        customer_address := (cart.customer_address.getD "Pickup"),
        items := cart.items,
        total_items := cart.get_item_count,
        subtotal := cart.get_total,
        tax := round2 (cart.get_total * (8 / 100)),
        total := round2 (cart.get_total * (108 / 100)),
        status := "confirmed" }
    (some order_data, CartState.init,
      "Perfect! Your order has been placed and saved as " ++ order_id ++ ".")

/- ------------------------------------------------------------------
Auxiliary definitions used by the theorems.
------------------------------------------------------------------ -/

/-- The declared order of the lead missing-field labels. -/
def lead_field_labels : List String :=
  ["name", "email", "company", "use case", "timeline"]

/-- `LeadState.get_missing_fields` as a function of the five Python
truthiness bits, in declared order. -/
def missing_of (b1 b2 b3 b4 b5 : Bool) : List String :=
  (if b1 then ["name"] else []) ++
  (if b2 then ["email"] else []) ++
  (if b3 then ["company"] else []) ++
  (if b4 then ["use case"] else []) ++
  (if b5 then ["timeline"] else [])

/-- One field-updater call of the SDR agent. -/
inductive LeadOp where
  | set_name (v : String)
  | set_company (v : String)
  | set_email (v : String)
  | set_role (v : String)
  | set_use_case (v : String)
  | set_team_size (v : String)
  | set_timeline (v : String)
deriving Repr, DecidableEq

/-- The raw argument of a lead field updater. -/
def LeadOp.arg : LeadOp → String
  | .set_name v => v
  | .set_company v => v
  | .set_email v => v
  | .set_role v => v
  | .set_use_case v => v
  | .set_team_size v => v
  | .set_timeline v => v

/-- Apply one lead field updater (state part of the tool). -/
def lead_apply (st : LeadState) : LeadOp → LeadState
  | .set_name v => (record_lead_name st v).1
  | .set_company v => (record_lead_company st v).1
  | .set_email v => (record_lead_email st v).1
  | .set_role v => (record_lead_role st v).1
  | .set_use_case v => (record_use_case st v).1
  | .set_team_size v => (record_team_size st v).1
  | .set_timeline v => (record_timeline st v).1

/-- The best FAQ score over a list of entries (0 for the empty list). -/
def faq_max_score (query_lower : String) (items : List FaqItem) : Nat :=
  (items.map (faq_score query_lower)).foldr max 0

/-- Status well-formedness of the fraud store: every stored status, when
present, lies in the closed enum. -/
def store_status_ok (cases : List StoredCase) : Prop :=
  ∀ c ∈ cases, ∀ s, c.status = some s → s ∈ fraud_status_enum

/- ------------------------------------------------------------------
Theorems.
------------------------------------------------------------------ -/

/-- C1 counterexample: adding `{id=X, notes=""}` with quantity 1 and then
again with quantity 2 leaves one food-cart line with quantity 3 but the
stale subtotal `1 × unit_price` (10, not the claimed `3 × unit_price` =
30), because the merge branch of `CartState.add_item` never recomputes
`subtotal`; and the commerce cart never merges at all — the same product
added twice yields two line items. -/
theorem c1_counterexample :
    (add_item_list (add_item_list [] ⟨"X", "Widget", 10⟩ 1 "") ⟨"X", "Widget", 10⟩ 2 "" =
      [{ id := "X", name := "Widget", price := 10, quantity := 3, notes := "",
         subtotal := 10 }]) ∧
    (10 : ℚ) ≠ 3 * 10 ∧
    (commerce_add_to_cart
        (commerce_add_to_cart [] ⟨"X", "Widget", 10, "mug", []⟩ 1 "")
        ⟨"X", "Widget", 10, "mug", []⟩ 2 "").length = 2 := by
  refine ⟨by norm_num [add_item_list], by norm_num, ?_⟩
  norm_num [commerce_add_to_cart]

/-- C1 amended: in the food cart, adding an item whose `(id, notes)` key
matches an existing line increments that (first matching) line's
quantity and appends nothing, but leaves its stored `subtotal`
unchanged; only adding under a fresh key stores `subtotal = price ×
quantity`.  The commerce cart's `add_to_cart` never merges: whenever the
clothing-size prompt does not fire it appends a new line item with
`subtotal = price × quantity`, even if an equal line already exists. -/
theorem c1_amended :
    (∀ (pre post : List CartItem) (c : CartItem) (item : Item) (q : ℤ) (notes : String),
      (∀ c' ∈ pre, ¬(c'.id = item.id ∧ c'.notes = notes)) →
      c.id = item.id → c.notes = notes →
      add_item_list (pre ++ c :: post) item q notes =
        pre ++ { c with quantity := c.quantity + q } :: post) ∧
    (∀ (items : List CartItem) (item : Item) (q : ℤ) (notes : String),
      (∀ c ∈ items, ¬(c.id = item.id ∧ c.notes = notes)) →
      add_item_list items item q notes =
        items ++ [{ id := item.id, name := item.name, price := item.price,
                    quantity := q, notes := notes,
                    subtotal := item.price * (q : ℚ) }]) ∧
    (∀ (cart : List CommerceItem) (p : Product) (q : ℤ) (size : String),
      ¬(p.category = "clothing" ∧ size = "" ∧ p.sizes ≠ []) →
      commerce_add_to_cart cart p q size =
        cart ++ [{ product_id := p.id, name := p.name, price := p.price,
                   quantity := q, subtotal := p.price * (q : ℚ),
                   size := if size = "" then none else some size }]) := by
  refine ⟨?_, ?_, ?_⟩
  · intro pre post c item q notes hpre hid hnotes
    induction pre with
    | nil => simp [add_item_list, hid, hnotes]
    | cons c' rest ih =>
        have hc' : ¬(c'.id = item.id ∧ c'.notes = notes) := hpre c' (by simp)
        simp only [List.cons_append, add_item_list, if_neg hc']
        have := ih (fun x hx => hpre x (by simp [hx]))
        simp [this]
  · intro items item q notes hall
    induction items with
    | nil => simp [add_item_list]
    | cons c rest ih =>
        have hc : ¬(c.id = item.id ∧ c.notes = notes) := hall c (by simp)
        simp only [add_item_list, if_neg hc]
        have := ih (fun x hx => hall x (by simp [hx]))
        simp [this]
  · intro cart p q size h
    simp [commerce_add_to_cart, h]

/-- C2: the error-containment contract fails at the two cited spots: with
a loaded case whose stored security answer is `None`,
`verify_customer_identity` evaluates `None.lower()` and raises
`AttributeError` instead of returning a string; and with an existing
wellness log that parses to a JSON object without an "entries" key,
`complete_checkin` evaluates `wellness_log["entries"]` and raises
`KeyError` instead of returning a string. -/
theorem c2_failing_inputs :
    verify_customer_identity
      { fraud_case := { FraudCaseState.init with
          user_name := some "Ravi Kumar", security_answer := none },
        case_loaded := true }
      [] "blue" = .error () ∧
    complete_checkin
      { WellnessState.init with
          mood := some "tired", energy_level := some "low",
          daily_objectives := ["sleep more"] }
      (some { entries := none }) "2025-01-01" "09:00:00" "2025-01-01T09:00:00" =
      .error () := by
  constructor
  · rfl
  · rfl

/-- C3 counterexample: a lead record with only name, email and use case
set has `is_complete() = true` while `get_missing_fields()` still
returns `["company", "timeline"]`, so the missing-field list is not
empty exactly when `is_complete()` is true. -/
theorem c3_counterexample :
    LeadState.is_complete
      { LeadState.init with
          name := some "Asha", email := some "asha@example.com",
          use_case := some "payments" } = true ∧
    LeadState.get_missing_fields
      { LeadState.init with
          name := some "Asha", email := some "asha@example.com",
          use_case := some "payments" } = ["company", "timeline"] := by
  constructor
  · rfl
  · rfl

theorem missing_of_sublist_labels (b1 b2 b3 b4 b5 : Bool) :
    List.Sublist (missing_of b1 b2 b3 b4 b5) lead_field_labels := by
  revert b1 b2 b3 b4 b5
  decide

theorem missing_of_nil_iff (b1 b2 b3 b4 b5 : Bool) :
    missing_of b1 b2 b3 b4 b5 = [] ↔
      b1 = false ∧ b2 = false ∧ b3 = false ∧ b4 = false ∧ b5 = false := by
  revert b1 b2 b3 b4 b5
  decide

theorem missing_of_mono (b1 b2 b3 b4 b5 c1 c2 c3 c4 c5 : Bool)
    (h1 : b1 ≤ c1) (h2 : b2 ≤ c2) (h3 : b3 ≤ c3) (h4 : b4 ≤ c4) (h5 : b5 ≤ c5) :
    List.Sublist (missing_of b1 b2 b3 b4 b5) (missing_of c1 c2 c3 c4 c5) := by
  revert h1 h2 h3 h4 h5
  revert b1 b2 b3 b4 b5 c1 c2 c3 c4 c5
  decide

theorem lead_missing_eq (st : LeadState) :
    st.get_missing_fields =
      missing_of (py_falsy st.name) (py_falsy st.email) (py_falsy st.company)
        (py_falsy st.use_case) (py_falsy st.timeline) := rfl

theorem py_falsy_false_isSome {o : Option String} (h : py_falsy o = false) :
    o.isSome = true := by
  cases o with
  | none => simp [py_falsy] at h
  | some s => rfl

/-- C3 amended: `get_missing_fields` returns labels in the fixed
declared order (name, email, company, use case, timeline — always a
sublist of that list), applying any field updater with a non-empty
argument never grows the list, and the list is empty iff all five of
those fields are Python-truthy.  That emptiness condition is strictly
stronger than `is_complete()` (which only requires name, email and use
case to be non-`None`): an empty missing list implies `is_complete()`,
but not conversely. -/
theorem c3_amended :
    (∀ st : LeadState, List.Sublist st.get_missing_fields lead_field_labels) ∧
    (∀ st : LeadState,
       st.get_missing_fields = [] ↔
         (py_falsy st.name = false ∧ py_falsy st.email = false ∧
          py_falsy st.company = false ∧ py_falsy st.use_case = false ∧
          py_falsy st.timeline = false)) ∧
    (∀ st : LeadState, st.get_missing_fields = [] → st.is_complete = true) ∧
    (∀ (st : LeadState) (op : LeadOp), op.arg ≠ "" →
       List.Sublist (lead_apply st op).get_missing_fields st.get_missing_fields) := by
  refine ⟨?_, ?_, ?_, ?_⟩
  · intro st
    rw [lead_missing_eq]
    exact missing_of_sublist_labels _ _ _ _ _
  · intro st
    rw [lead_missing_eq]
    exact missing_of_nil_iff _ _ _ _ _
  · intro st h
    rw [lead_missing_eq] at h
    obtain ⟨h1, h2, _, h4, _⟩ := (missing_of_nil_iff _ _ _ _ _).mp h
    simp [LeadState.is_complete, py_falsy_false_isSome h1, py_falsy_false_isSome h2,
      py_falsy_false_isSome h4]
  · intro st op harg
    have hfalsy : ∀ v : String, v ≠ "" → py_falsy (some v) = false := by
      intro v hv
      simpa [py_falsy] using hv
    cases op with
    | set_name v =>
        rw [lead_missing_eq, lead_missing_eq]
        exact missing_of_mono _ _ _ _ _ _ _ _ _ _
          (by simp [lead_apply, record_lead_name, hfalsy v harg]) (by simp [lead_apply, record_lead_name])
          (by simp [lead_apply, record_lead_name]) (by simp [lead_apply, record_lead_name])
          (by simp [lead_apply, record_lead_name])
    | set_company v =>
        rw [lead_missing_eq, lead_missing_eq]
        exact missing_of_mono _ _ _ _ _ _ _ _ _ _
          (by simp [lead_apply, record_lead_company]) (by simp [lead_apply, record_lead_company])
          (by simp [lead_apply, record_lead_company, hfalsy v harg]) (by simp [lead_apply, record_lead_company])
          (by simp [lead_apply, record_lead_company])
    | set_email v =>
        rw [lead_missing_eq, lead_missing_eq]
        exact missing_of_mono _ _ _ _ _ _ _ _ _ _
          (by simp [lead_apply, record_lead_email]) (by simp [lead_apply, record_lead_email, hfalsy v harg])
          (by simp [lead_apply, record_lead_email]) (by simp [lead_apply, record_lead_email])
          (by simp [lead_apply, record_lead_email])
    | set_role v =>
        exact List.Sublist.refl _
    | set_use_case v =>
        rw [lead_missing_eq, lead_missing_eq]
        exact missing_of_mono _ _ _ _ _ _ _ _ _ _
          (by simp [lead_apply, record_use_case]) (by simp [lead_apply, record_use_case])
          (by simp [lead_apply, record_use_case]) (by simp [lead_apply, record_use_case, hfalsy v harg])
          (by simp [lead_apply, record_use_case])
    | set_team_size v =>
        exact List.Sublist.refl _
    | set_timeline v =>
        rw [lead_missing_eq, lead_missing_eq]
        refine missing_of_mono _ _ _ _ _ _ _ _ _ _
          (by simp [lead_apply, record_timeline]) (by simp [lead_apply, record_timeline])
          (by simp [lead_apply, record_timeline]) (by simp [lead_apply, record_timeline]) ?_
        have hnt : normalize_timeline v ≠ "" := by
          unfold normalize_timeline
          dsimp only
          split_ifs <;> decide
        have hf : py_falsy (some (normalize_timeline v)) = false := hfalsy _ hnt
        simp [lead_apply, record_timeline, hf]

/-- Witness for `c3_amended` applying the monotonicity part at a
concrete updater call. -/
theorem c3_amended_witness :
    List.Sublist (lead_apply LeadState.init (LeadOp.set_name "Asha")).get_missing_fields
      LeadState.init.get_missing_fields :=
  c3_amended.2.2.2 LeadState.init (LeadOp.set_name "Asha") (by decide)

theorem update_list_status_ok (cases : List StoredCase) (un s : String)
    (oc : Option String) (h2 : store_status_ok cases) (hs : s ∈ fraud_status_enum) :
    store_status_ok (update_case_in_database_list cases un s oc) := by
  induction cases with
  | nil => simpa [update_case_in_database_list] using h2
  | cons c rest ih =>
      have hrest : store_status_ok rest := fun x hx => h2 x (by simp [hx])
      simp only [update_case_in_database_list]
      split
      · intro x hx s' hx'
        rcases List.mem_cons.mp hx with h | h
        · subst h
          simp only at hx'
          cases hx'
          exact hs
        · exact hrest x h s' hx'
      · intro x hx s' hx'
        rcases List.mem_cons.mp hx with h | h
        · subst h
          exact h2 x (by simp) s' hx'
        · exact ih hrest x h s' hx'

theorem verify_status_ok (ag : FraudAgentState) (cases : List StoredCase) (a : String)
    (h1 : ag.fraud_case.status ∈ fraud_status_enum) (h2 : store_status_ok cases) :
    ∀ ag' cs' msg, verify_customer_identity ag cases a = .ok (ag', cs', msg) →
      ag'.fraud_case.status ∈ fraud_status_enum ∧ store_status_ok cs' := by
  intro ag' cs' msg h
  unfold verify_customer_identity at h
  by_cases hl : ¬ ag.case_loaded
  · rw [if_pos hl] at h
    cases h
    exact ⟨h1, h2⟩
  · rw [if_neg hl] at h
    cases hsa : ag.fraud_case.security_answer with
    | none =>
        rw [hsa] at h
        dsimp only at h
        exact Except.noConfusion h
    | some stored =>
        rw [hsa] at h
        dsimp only at h
        by_cases hm : py_trim (py_lower a) = py_trim (py_lower stored)
        · rw [if_pos hm] at h
          cases h
          exact ⟨h1, h2⟩
        · rw [if_neg hm] at h
          unfold update_case_in_database at h
          try dsimp only at h
          cases hun : ag.fraud_case.user_name with
          | none =>
              simp only [hun] at h
              exact Except.noConfusion h
          | some un =>
              simp only [hun] at h
              cases h
              refine ⟨by simp [fraud_status_enum], ?_⟩
              exact update_list_status_ok _ _ _ _ h2 (by simp [fraud_status_enum])

theorem confirm_status_ok (ag : FraudAgentState) (cases : List StoredCase) (b : Bool)
    (h1 : ag.fraud_case.status ∈ fraud_status_enum) (h2 : store_status_ok cases) :
    ∀ ag' cs' msg, record_transaction_confirmation ag cases b = .ok (ag', cs', msg) →
      ag'.fraud_case.status ∈ fraud_status_enum ∧ store_status_ok cs' := by
  intro ag' cs' msg h
  unfold record_transaction_confirmation at h
  by_cases hv : ¬ ag.fraud_case.verification_passed
  · rw [if_pos hv] at h
    cases h
    exact ⟨h1, h2⟩
  · rw [if_neg hv] at h
    cases b with
    | true =>
        simp only [if_pos] at h
        unfold update_case_in_database at h
        try dsimp only at h
        cases hun : ag.fraud_case.user_name with
        | none =>
            simp only [hun] at h
            exact Except.noConfusion h
        | some un =>
            simp only [hun] at h
            cases h
            refine ⟨by simp [fraud_status_enum], ?_⟩
            exact update_list_status_ok _ _ _ _ h2 (by simp [fraud_status_enum])
    | false =>
        simp only [Bool.false_eq_true, if_false] at h
        unfold update_case_in_database at h
        try dsimp only at h
        cases hun : ag.fraud_case.user_name with
        | none =>
            simp only [hun] at h
            exact Except.noConfusion h
        | some un =>
            simp only [hun] at h
            cases h
            refine ⟨by simp [fraud_status_enum], ?_⟩
            exact update_list_status_ok _ _ _ _ h2 (by simp [fraud_status_enum])

theorem fraud_step_preserves (ag : FraudAgentState) (cases : List StoredCase)
    (op : FraudOp) (h1 : ag.fraud_case.status ∈ fraud_status_enum)
    (h2 : store_status_ok cases) :
    (fraud_step (ag, cases) op).1.fraud_case.status ∈ fraud_status_enum ∧
      store_status_ok (fraud_step (ag, cases) op).2 := by
  cases op with
  | load n =>
      simp only [fraud_step, load_fraud_case_by_username]
      split
      · exact ⟨h1, h2⟩
      next mc hfind =>
        refine ⟨?_, h2⟩
        cases hst : mc.status with
        | none => simp [hst, fraud_status_enum]
        | some s =>
            have hmem := List.mem_of_find?_eq_some hfind
            simpa [hst] using h2 mc hmem s hst
  | verify a =>
      simp only [fraud_step]
      split
      next ag' cs' msg heq => exact verify_status_ok ag cases a h1 h2 ag' cs' msg heq
      next => exact ⟨h1, h2⟩
  | confirm b =>
      simp only [fraud_step]
      split
      next ag' cs' msg heq => exact confirm_status_ok ag cases b h1 h2 ag' cs' msg heq
      next => exact ⟨h1, h2⟩

/-- C4: starting from any agent state and store whose statuses lie in the
closed enum, every sequence of fraud tool calls keeps both the in-memory
case status and every stored status inside
`{pending_review, verification_failed, confirmed_safe, confirmed_fraud}`;
`record_transaction_confirmation` before verification returns the
verify-first message and changes neither the state nor the store; and
after verification, confirmation `true` sets `status = confirmed_safe`
and confirmation `false` sets `status = confirmed_fraud`, each with its
outcome note persisted into the (first) store entry whose userName
matches the in-memory case's user name case-insensitively. -/
theorem c4_fraud_status_machine :
    (∀ (ops : List FraudOp) (ag : FraudAgentState) (cases : List StoredCase),
       ag.fraud_case.status ∈ fraud_status_enum → store_status_ok cases →
       ((fraud_run (ag, cases) ops).1.fraud_case.status ∈ fraud_status_enum ∧
        store_status_ok (fraud_run (ag, cases) ops).2)) ∧
    (∀ (ag : FraudAgentState) (cases : List StoredCase) (b : Bool),
       ag.fraud_case.verification_passed = false →
       record_transaction_confirmation ag cases b = .ok (ag, cases, verify_first_message)) ∧
    (∀ (ag : FraudAgentState) (cases : List StoredCase) (un : String),
       ag.fraud_case.verification_passed = true →
       ag.fraud_case.user_name = some un →
       (∃ msg, record_transaction_confirmation ag cases true =
          .ok ({ ag with fraud_case := { ag.fraud_case with
                   user_confirmed_transaction := some true,
                   status := "confirmed_safe",
                   outcome := some confirmed_safe_outcome } },
               update_case_in_database_list cases (py_lower un) "confirmed_safe"
                 (some confirmed_safe_outcome), msg)) ∧
       (∃ msg, record_transaction_confirmation ag cases false =
          .ok ({ ag with fraud_case := { ag.fraud_case with
                   user_confirmed_transaction := some false,
                   status := "confirmed_fraud",
                   outcome := some confirmed_fraud_outcome } },
               update_case_in_database_list cases (py_lower un) "confirmed_fraud"
                 (some confirmed_fraud_outcome), msg))) := by
  refine ⟨?_, ?_, ?_⟩
  · intro ops
    induction ops with
    | nil => intro ag cases h1 h2; exact ⟨h1, h2⟩
    | cons op rest ih =>
        intro ag cases h1 h2
        have hstep := fraud_step_preserves ag cases op h1 h2
        have : fraud_run (ag, cases) (op :: rest) =
            fraud_run (fraud_step (ag, cases) op) rest := rfl
        rw [this]
        exact ih (fraud_step (ag, cases) op).1 (fraud_step (ag, cases) op).2
          hstep.1 hstep.2
  · intro ag cases b h
    simp [record_transaction_confirmation, h, verify_first_message]
  · intro ag cases un hver hun
    constructor
    · simp only [record_transaction_confirmation, update_case_in_database, hver, hun,
        not_true, if_false, Bool.false_eq_true, if_true]
      exact ⟨_, rfl⟩
    · simp only [record_transaction_confirmation, update_case_in_database, hver, hun,
        not_true, if_false, Bool.false_eq_true, if_true]
      exact ⟨_, rfl⟩

/-- Witness for `c4_fraud_status_machine` on a concrete run of the state
machine. -/
theorem c4_witness :
    ((fraud_run (FraudAgentState.init,
        [{ userName := some "Ravi Kumar", securityIdentifier := none,
           cardEnding := some "4521", transactionAmount := some "15000 rupees",
           transactionName := some "TechMart Online", transactionTime := some "yesterday",
           transactionCategory := some "electronics", transactionSource := some "card",
           transactionLocation := some "Mumbai", securityQuestion := some "favorite color",
           securityAnswer := some "blue", status := some "pending_review",
           outcome := none }])
        [FraudOp.load "ravi kumar", FraudOp.verify "Blue", FraudOp.confirm false]).1.fraud_case.status
      ∈ fraud_status_enum) := by
  refine (c4_fraud_status_machine.1 _ FraudAgentState.init _ (by decide) ?_).1
  intro c hc s hs
  simp at hc
  subst hc
  simp at hs
  subst hs
  decide

/-- C5: with a loaded case, `verify_customer_identity` compares the
supplied answer against the stored security answer after lowercasing and
trimming both; a match sets `verification_passed = true` and changes
nothing else (status and store untouched); a mismatch sets
`verification_passed = false`, `status = "verification_failed"`, records
the outcome note, and writes status and outcome back into the first
store entry whose userName matches the in-memory user name
case-insensitively (entries before the match, and all entries when
nothing matches, are left unchanged). -/
theorem c5_fraud_verification :
    (∀ (ag : FraudAgentState) (cases : List StoredCase) (answer stored : String),
       ag.case_loaded = true →
       ag.fraud_case.security_answer = some stored →
       py_trim (py_lower answer) = py_trim (py_lower stored) →
       (∃ msg, verify_customer_identity ag cases answer =
          .ok ({ ag with fraud_case :=
                   { ag.fraud_case with verification_passed := true } }, cases, msg))) ∧
    (∀ (ag : FraudAgentState) (cases : List StoredCase) (answer stored un : String),
       ag.case_loaded = true →
       ag.fraud_case.security_answer = some stored →
       ag.fraud_case.user_name = some un →
       py_trim (py_lower answer) ≠ py_trim (py_lower stored) →
       (∃ msg, verify_customer_identity ag cases answer =
          .ok ({ ag with fraud_case := { ag.fraud_case with
                   verification_passed := false,
                   status := "verification_failed",
                   outcome := some verification_failed_outcome } },
               update_case_in_database_list cases (py_lower un) "verification_failed"
                 (some verification_failed_outcome), msg))) ∧
    (∀ (cases : List StoredCase) (un s : String) (oc : Option String),
       (∀ c ∈ cases, py_lower (c.userName.getD "") ≠ un) →
       update_case_in_database_list cases un s oc = cases) ∧
    (∀ (pre post : List StoredCase) (c : StoredCase) (un s : String) (oc : Option String),
       (∀ c' ∈ pre, py_lower (c'.userName.getD "") ≠ un) →
       py_lower (c.userName.getD "") = un →
       update_case_in_database_list (pre ++ c :: post) un s oc =
         pre ++ { c with status := some s, outcome := oc } :: post) := by
  refine ⟨?_, ?_, ?_, ?_⟩
  · intro ag cases answer stored hl hsa hm
    simp only [verify_customer_identity, hl, hsa, not_true, if_false, if_pos hm]
    exact ⟨_, rfl⟩
  · intro ag cases answer stored un hl hsa hun hm
    simp only [verify_customer_identity, hl, hsa, not_true, if_false, if_neg hm,
      update_case_in_database, hun]
    exact ⟨_, rfl⟩
  · intro cases un s oc hall
    induction cases with
    | nil => rfl
    | cons c rest ih =>
        have hc : (py_lower (c.userName.getD "") == un) = false := by
          simpa using hall c (by simp)
        simp only [update_case_in_database_list, hc, Bool.false_eq_true, if_false,
          List.cons.injEq, true_and]
        exact ih (fun x hx => hall x (by simp [hx]))
  · intro pre post c un s oc hpre hc
    induction pre with
    | nil =>
        simp only [List.nil_append, update_case_in_database_list]
        rw [if_pos (by simpa using hc)]
    | cons c' rest ih =>
        have hc' : (py_lower (c'.userName.getD "") == un) = false := by
          simpa using hpre c' (by simp)
        simp only [List.cons_append, update_case_in_database_list, hc',
          Bool.false_eq_true, if_false, List.cons.injEq, true_and]
        exact ih (fun x hx => hpre x (by simp [hx]))

/-- Witness for `c5_fraud_verification` applying the match branch at a
concrete loaded case. -/
theorem c5_witness :
    ∃ msg, verify_customer_identity
      { fraud_case := { FraudCaseState.init with
          user_name := some "Ravi Kumar", security_answer := some "blue" },
        case_loaded := true }
      [] "blue" =
      .ok ({ fraud_case := { FraudCaseState.init with
               user_name := some "Ravi Kumar", security_answer := some "blue",
               verification_passed := true },
             case_loaded := true }, [], msg) :=
  c5_fraud_verification.1
    { fraud_case := { FraudCaseState.init with
        user_name := some "Ravi Kumar", security_answer := some "blue" },
      case_loaded := true }
    [] "blue" "blue" rfl rfl rfl

/-- C6 counterexample: after a successful `complete_checkin` on a
complete record, the in-memory wellness record is not reset to an empty
record — it keeps all its fields and only gains `check_in_complete =
true` (the source deliberately defers the reset to
`start_new_checkin`). -/
theorem c6_counterexample :
    ((complete_checkin
        { mood := some "tired", energy_level := some "low", stress_factors := [],
          daily_objectives := ["sleep more"], self_care_intentions := [],
          check_in_complete := false }
        (some { entries := some [] }) "2025-01-01" "09:00:00"
        "2025-01-01T09:00:00").toOption.map (fun r => r.1) =
      some { mood := some "tired", energy_level := some "low", stress_factors := [],
             daily_objectives := ["sleep more"], self_care_intentions := [],
             check_in_complete := true }) ∧
    ({ mood := some "tired", energy_level := some "low", stress_factors := [],
       daily_objectives := ["sleep more"], self_care_intentions := [],
       check_in_complete := true } : WellnessState) ≠ WellnessState.init := by
  constructor
  · rfl
  · decide

/-- C6 amended: `complete_order` on a non-empty cart with a customer
name persists the order and replaces the in-memory cart with a fresh
empty `CartState()`; `complete_checkin` on a complete record persists
the entry but does not reset the record — it only sets
`check_in_complete = true`, the reset happening only in the separate
`start_new_checkin` operation. -/
theorem c6_amended :
    (∀ (cart : CartState) (oid ts d t : String),
       cart.items ≠ [] → py_falsy cart.customer_name = false →
       (complete_order cart oid ts d t).2.1 = CartState.init) ∧
    (∀ (st : WellnessState) (loaded : Option WellnessLogDoc) (d t ts : String)
       (es : List CheckinEntry),
       st.is_complete = true →
       (loaded.getD { entries := some [] }).entries = some es →
       (complete_checkin st loaded d t ts).toOption.map (fun r => r.1) =
         some { st with check_in_complete := true }) ∧
    (∀ st : WellnessState, start_new_checkin st = WellnessState.init) := by
  refine ⟨?_, ?_, ?_⟩
  · intro cart oid ts d t h1 h2
    have hne : cart.items.isEmpty = false := by
      cases h : cart.items with
      | nil => exact absurd h h1
      | cons a l => rfl
    simp [complete_order, hne, h2]
  · intro st loaded d t ts es h1 h2
    unfold complete_checkin
    rw [if_neg (by simp [h1])]
    dsimp only
    rw [h2]
    rfl
  · intro st
    rfl

/-- Witness for `c6_amended` at a concrete completed order and check-in. -/
theorem c6_amended_witness :
    (complete_order
      { items := [⟨"X", "Widget", 10, 1, "", 10⟩], customer_name := some "Asha",
        customer_address := none, order_complete := false }
      "ORDER_1" "ts" "d" "t").2.1 = CartState.init :=
  c6_amended.1
    { items := [⟨"X", "Widget", 10, 1, "", 10⟩], customer_name := some "Asha",
      customer_address := none, order_complete := false }
    "ORDER_1" "ts" "d" "t" (by simp) rfl

/-- C7 counterexample: `answer_company_question` tracks asked questions
with an unconditional append — asking the identical question twice
leaves two copies in `questions_asked`, so the list-dedup no-op does not
hold for the SDR agent's question tracking. -/
theorem c7_counterexample :
    ((answer_company_question
        (answer_company_question LeadState.init [] "overview" "What are your fees?").1
        [] "overview" "What are your fees?").1).questions_asked =
      ["What are your fees?", "What are your fees?"] := by
  rfl

/-- C7 amended: the wellness list updaters are dedup no-ops — adding a
value whose lowercasing is already stored leaves the state unchanged
while still returning the acknowledgment string — but the SDR agent's
`questions_asked` list appends unconditionally, so duplicates are
possible there. -/
theorem c7_amended :
    (∀ (st : WellnessState) (x : String),
       st.stress_factors.contains (py_lower x) = true →
       (add_stress_factor st x).1 = st ∧
         (add_stress_factor st x).2 =
           "I understand that " ++ x ++ " is weighing on you right now.") ∧
    (∀ (st : WellnessState) (x : String),
       st.daily_objectives.contains (py_lower x) = true →
       (add_daily_objective st x).1 = st ∧
         (add_daily_objective st x).2 = "That sounds like a great goal: " ++ x ++ ".") ∧
    (∀ (st : WellnessState) (x : String),
       st.self_care_intentions.contains (py_lower x) = true →
       (add_self_care_intention st x).1 = st ∧
         (add_self_care_intention st x).2 =
           "That\x27s wonderful - " ++ x ++ " sounds like great self-care.") ∧
    (∀ (st : LeadState) (items : List FaqItem) (ov q : String),
       (answer_company_question st items ov q).1.questions_asked =
         st.questions_asked ++ [q]) := by
  refine ⟨?_, ?_, ?_, ?_⟩
  · intro st x h
    refine ⟨?_, rfl⟩
    simp only [add_stress_factor]
    rw [if_pos h]
  · intro st x h
    refine ⟨?_, rfl⟩
    simp only [add_daily_objective]
    rw [if_pos h]
  · intro st x h
    refine ⟨?_, rfl⟩
    simp only [add_self_care_intention]
    rw [if_pos h]
  · intro st items ov q
    unfold answer_company_question
    dsimp only
    cases hsf : search_faq items q <;> simp [hsf]

/-- Witness for `c7_amended` at a concrete duplicate objective. -/
theorem c7_amended_witness :
    (add_daily_objective
      { WellnessState.init with daily_objectives := ["sleep more"] } "Sleep More").1 =
      { WellnessState.init with daily_objectives := ["sleep more"] } :=
  (c7_amended.2.1
    { WellnessState.init with daily_objectives := ["sleep more"] } "Sleep More"
    (by decide)).1

/-- C8: `record_timeline` lowercases its argument and applies the fixed
cascade — any now-class keyword wins first, otherwise any soon-class
keyword, otherwise "later" — and on the concrete inputs "right now
please" ↦ now, "maybe next month" ↦ soon, "just curious" ↦ later. -/
theorem c8_timeline_cascade :
    (∀ (st : LeadState) (t : String),
       now_keywords.any (fun word => py_in word (py_lower t)) = true →
       (record_timeline st t).1.timeline = some "now") ∧
    (∀ (st : LeadState) (t : String),
       now_keywords.any (fun word => py_in word (py_lower t)) = false →
       soon_keywords.any (fun word => py_in word (py_lower t)) = true →
       (record_timeline st t).1.timeline = some "soon") ∧
    (∀ (st : LeadState) (t : String),
       now_keywords.any (fun word => py_in word (py_lower t)) = false →
       soon_keywords.any (fun word => py_in word (py_lower t)) = false →
       (record_timeline st t).1.timeline = some "later") ∧
    (∀ st : LeadState, (record_timeline st "right now please").1.timeline = some "now") ∧
    (∀ st : LeadState, (record_timeline st "maybe next month").1.timeline = some "soon") ∧
    (∀ st : LeadState, (record_timeline st "just curious").1.timeline = some "later") := by
  refine ⟨?_, ?_, ?_, ?_, ?_, ?_⟩
  · intro st t h1
    simp [record_timeline, normalize_timeline, h1]
  · intro st t h1 h2
    simp [record_timeline, normalize_timeline, h1, h2]
  · intro st t h1 h2
    simp [record_timeline, normalize_timeline, h1, h2]
  · intro st
    rfl
  · intro st
    rfl
  · intro st
    rfl

/-- Witness for `c8_timeline_cascade` at a concrete soon-class input. -/
theorem c8_witness :
    (record_timeline LeadState.init "maybe next month").1.timeline = some "soon" :=
  c8_timeline_cascade.2.1 LeadState.init "maybe next month" (by decide) (by decide)

theorem faq_max_score_cons (q : String) (it : FaqItem) (rest : List FaqItem) :
    faq_max_score q (it :: rest) = max (faq_score q it) (faq_max_score q rest) := rfl

theorem faq_score_le_max (q : String) (items : List FaqItem) (it : FaqItem)
    (h : it ∈ items) : faq_score q it ≤ faq_max_score q items := by
  induction items with
  | nil => simp at h
  | cons a l ih =>
      rcases List.mem_cons.mp h with rfl | h'
      · rw [faq_max_score_cons]
        exact le_max_left _ _
      · exact le_trans (ih h') (by rw [faq_max_score_cons]; exact le_max_right _ _)

theorem faq_scan_all_le (q : String) (items : List FaqItem) (bm : Option FaqItem)
    (bs : Nat) (h : ∀ it ∈ items, faq_score q it ≤ bs) :
    faq_scan q items (bm, bs) = (bm, bs) := by
  induction items with
  | nil => rfl
  | cons it rest ih =>
      have hit : faq_score q it ≤ bs := h it (by simp)
      simp only [faq_scan]
      rw [if_neg (by omega)]
      exact ih (fun x hx => h x (by simp [hx]))

theorem faq_scan_finds_max (q : String) (items : List FaqItem) :
    ∀ (bm : Option FaqItem) (bs : Nat), bs < faq_max_score q items →
    faq_scan q items (bm, bs) =
      (items.find? (fun it => faq_score q it == faq_max_score q items),
       faq_max_score q items) := by
  induction items with
  | nil =>
      intro bm bs h
      simp [faq_max_score] at h
  | cons it rest ih =>
      intro bm bs h
      rw [faq_max_score_cons] at h
      by_cases hge : faq_max_score q rest ≤ faq_score q it
      · have hMe : faq_max_score q (it :: rest) = faq_score q it := by
          rw [faq_max_score_cons]
          omega
        have hbs : bs < faq_score q it := by omega
        simp only [faq_scan]
        rw [if_pos hbs]
        rw [faq_scan_all_le q rest (some it) (faq_score q it)
          (fun x hx => le_trans (faq_score_le_max q rest x hx) hge)]
        rw [List.find?]
        rw [hMe]
        simp
      · push_neg at hge
        have hMe : faq_max_score q (it :: rest) = faq_max_score q rest := by
          rw [faq_max_score_cons]
          omega
        have hhead : (faq_score q it == faq_max_score q rest) = false := by
          simp only [beq_eq_false_iff_ne, ne_eq]
          omega
        rw [hMe]
        by_cases hb : faq_score q it > bs
        · simp only [faq_scan]
          rw [if_pos hb]
          rw [ih (some it) (faq_score q it) hge]
          rw [List.find?]
          rw [hhead]
        · simp only [faq_scan]
          rw [if_neg hb]
          rw [ih bm bs (by omega)]
          rw [List.find?]
          rw [hhead]

theorem faq_max_attained (q : String) (items : List FaqItem)
    (h : 0 < faq_max_score q items) :
    ∃ it ∈ items, faq_score q it = faq_max_score q items := by
  induction items with
  | nil => simp [faq_max_score] at h
  | cons a l ih =>
      rw [faq_max_score_cons] at h ⊢
      by_cases hge : faq_max_score q l ≤ faq_score q a
      · exact ⟨a, by simp, (Nat.max_eq_left hge).symm⟩
      · push_neg at hge
        obtain ⟨it, hmem, hs⟩ := ih (by omega)
        refine ⟨it, by simp [hmem], ?_⟩
        rw [Nat.max_eq_right (Nat.le_of_lt hge)]
        exact hs

/-- C9: `search_faq` scores each entry as 2 per keyword of the entry
occurring in the lowercased query plus 1 per question word longer than 3
characters occurring in the query, returns `none` exactly when the best
score is 0, and otherwise returns the first entry attaining the maximum
score (strict `>` comparison means the first maximum wins); concretely,
"what are your fees" scores ≥ 2 against an entry with keywords
["pricing", "fees"] and that entry is returned over one scoring 0. -/
theorem c9_faq_search :
    (∀ (items : List FaqItem) (query : String),
       faq_max_score (py_lower query) items = 0 → search_faq items query = none) ∧
    (∀ (items : List FaqItem) (query : String),
       0 < faq_max_score (py_lower query) items →
       search_faq items query =
         items.find? (fun it =>
           faq_score (py_lower query) it == faq_max_score (py_lower query) items)) ∧
    (∀ (items : List FaqItem) (query : String),
       0 < faq_max_score (py_lower query) items →
       (search_faq items query).isSome = true) ∧
    2 ≤ faq_score (py_lower "what are your fees")
        { question := "What are your fees and pricing?",
          answer := "Our standard fee is 2 percent per transaction.",
          keywords := ["pricing", "fees"] } ∧
    faq_score (py_lower "what are your fees")
        { question := "Which countries do you operate in?",
          answer := "We operate only in India.",
          keywords := ["countries", "international"] } = 0 ∧
    search_faq
      [{ question := "Which countries do you operate in?",
         answer := "We operate only in India.",
         keywords := ["countries", "international"] },
       { question := "What are your fees and pricing?",
         answer := "Our standard fee is 2 percent per transaction.",
         keywords := ["pricing", "fees"] }]
      "what are your fees" =
      some { question := "What are your fees and pricing?",
             answer := "Our standard fee is 2 percent per transaction.",
             keywords := ["pricing", "fees"] } := by
  refine ⟨?_, ?_, ?_, by decide, by decide, by decide⟩
  · intro items query h
    unfold search_faq
    dsimp only
    rw [faq_scan_all_le (py_lower query) items none 0
      (fun x hx => by rw [← h]; exact faq_score_le_max _ _ _ hx)]
    rfl
  · intro items query h
    unfold search_faq
    dsimp only
    rw [faq_scan_finds_max (py_lower query) items none 0 h]
    rw [if_pos h]
  · intro items query h
    unfold search_faq
    dsimp only
    rw [faq_scan_finds_max (py_lower query) items none 0 h]
    rw [if_pos h]
    obtain ⟨it, hmem, hs⟩ := faq_max_attained (py_lower query) items h
    rw [List.find?_isSome]
    exact ⟨it, hmem, by simp [hs]⟩

/-- Witness for `c9_faq_search` applying the first-maximum rule at a
concrete FAQ list. -/
theorem c9_witness :
    search_faq
      [{ question := "What are your fees and pricing?",
         answer := "Our standard fee is 2 percent per transaction.",
         keywords := ["pricing", "fees"] }]
      "what are your fees" =
      List.find? (fun it =>
          faq_score (py_lower "what are your fees") it ==
            faq_max_score (py_lower "what are your fees")
              [{ question := "What are your fees and pricing?",
                 answer := "Our standard fee is 2 percent per transaction.",
                 keywords := ["pricing", "fees"] }])
        [{ question := "What are your fees and pricing?",
           answer := "Our standard fee is 2 percent per transaction.",
           keywords := ["pricing", "fees"] }] :=
  c9_faq_search.2.1
    [{ question := "What are your fees and pricing?",
       answer := "Our standard fee is 2 percent per transaction.",
       keywords := ["pricing", "fees"] }]
    "what are your fees" (by decide)

/-- C10: `complete_checkin` on a complete record snapshots the record
into the persisted entry before setting the completion flag: the
appended entry carries the pre-call `check_in_complete` (hence `false`
whenever the record had not been completed before), while the in-memory
record's flag is `true` after the call returns. -/
theorem c10_persisted_flag :
    ∀ (st : WellnessState) (loaded : Option WellnessLogDoc) (d t ts : String)
      (es : List CheckinEntry),
      st.is_complete = true →
      (loaded.getD { entries := some [] }).entries = some es →
      ∃ (st2 : WellnessState) (doc : WellnessLogDoc) (msg : String)
        (entry : CheckinEntry),
        complete_checkin st loaded d t ts = .ok (st2, some doc, msg) ∧
        doc.entries = some (es ++ [entry]) ∧
        entry.check_in_complete = st.check_in_complete ∧
        st2.check_in_complete = true ∧
        (st.check_in_complete = false → entry.check_in_complete = false) := by
  intro st loaded d t ts es h1 h2
  unfold complete_checkin
  rw [if_neg (by simp [h1])]
  dsimp only
  rw [h2]
  exact ⟨_, _, _, _, rfl, rfl, rfl, rfl, fun h => h⟩

/-- Witness for `c10_persisted_flag` at a concrete complete record. -/
theorem c10_witness :
    ∃ (st2 : WellnessState) (doc : WellnessLogDoc) (msg : String)
      (entry : CheckinEntry),
      complete_checkin
        { mood := some "tired", energy_level := some "low", stress_factors := [],
          daily_objectives := ["sleep more"], self_care_intentions := [],
          check_in_complete := false }
        (some { entries := some [] }) "2025-01-01" "09:00:00"
        "2025-01-01T09:00:00" = .ok (st2, some doc, msg) ∧
      doc.entries = some ([] ++ [entry]) ∧
      entry.check_in_complete =
        ({ mood := some "tired", energy_level := some "low", stress_factors := [],
           daily_objectives := ["sleep more"], self_care_intentions := [],
           check_in_complete := false } : WellnessState).check_in_complete ∧
      st2.check_in_complete = true ∧
      (({ mood := some "tired", energy_level := some "low", stress_factors := [],
          daily_objectives := ["sleep more"], self_care_intentions := [],
          check_in_complete := false } : WellnessState).check_in_complete = false →
        entry.check_in_complete = false) :=
  c10_persisted_flag
    { mood := some "tired", energy_level := some "low", stress_factors := [],
      daily_objectives := ["sleep more"], self_care_intentions := [],
      check_in_complete := false }
    (some { entries := some [] }) "2025-01-01" "09:00:00" "2025-01-01T09:00:00"
    [] rfl rfl

/-- Witness for `c1_amended` at a concrete cart. -/
theorem c1_amended_witness :
    add_item_list ([] ++ (⟨"X", "Widget", 10, 1, "", 10⟩ : CartItem) :: []) ⟨"X", "Widget", 10⟩ 2 "" =
      [] ++ { (⟨"X", "Widget", 10, 1, "", 10⟩ : CartItem) with
              quantity := (⟨"X", "Widget", 10, 1, "", 10⟩ : CartItem).quantity + 2 } :: [] :=
  c1_amended.1 [] [] ⟨"X", "Widget", 10, 1, "", 10⟩ ⟨"X", "Widget", 10⟩ 2 ""
    (by simp) rfl rfl
